import Mathlib

/-
Verification of the startup and supervision kernel in src/app.js
(SpacialGaze, a Pokemon Showdown derivative).

The file shallowly embeds the parts of app.js that the claims concern:
the configuration load (try/catch/finally around require.resolve of
config/config), the fs.watchFile hot-reload callback, the crashguard
handlers (uncaughtException, unhandledRejection, exit), the dependency
preflight check, and the top-level startup statement order.
-/

namespace AppJs

/-- The configuration options of config/config.js that this part of the
program reads: watchconfig gates the hot-reload watcher, crashguard gates
the crash supervisor, remoteladder selects the Ladders implementation. -/
structure Config where
  watchconfig : Bool
  crashguard : Bool
  remoteladder : Bool
deriving DecidableEq, Repr

/-- Contents of a module file on disk: either it evaluates to a Config
when required, or requiring it throws (a parse or evaluation error). -/
inductive ConfigFileContent
  | valid (c : Config)
  | invalid (msg : String)
deriving DecidableEq, Repr

/-- The slice of the filesystem the configuration store touches:
config/config.js (possibly absent) and config/config-example.js. -/
structure FS where
  configFile : Option ConfigFileContent
  exampleFile : ConfigFileContent
deriving DecidableEq, Repr

/-- A thrown Node error, identified by its err.code string, which is what
the catch block in app.js inspects. -/
structure NodeErr where
  code : String
deriving DecidableEq, Repr

/-- Requiring config/config: throws MODULE_NOT_FOUND when the file is
absent, throws the evaluation error when the file does not evaluate, and
returns the configuration object otherwise.  (This also models the
require inside the watchFile callback, which runs after the entry for
the module was deleted from the require cache.) -/
def requireConfigModule (fs : FS) : Except NodeErr Config :=
  match fs.configFile with
  | none => .error ⟨"MODULE_NOT_FOUND"⟩
  | some (.invalid _) => .error ⟨"ERR_CONFIG_EVAL"⟩
  | some (.valid c) => .ok c

/-- require.resolve of config/config: throws MODULE_NOT_FOUND exactly
when the file is absent.  ioFault injects an environment fault with some
other err.code (the source comments that such a failure should never
happen, and rethrows it). -/
def resolveConfig (fs : FS) (ioFault : Option String) : Except NodeErr Unit :=
  if fs.configFile.isNone then .error ⟨"MODULE_NOT_FOUND"⟩
  else
    match ioFault with
    | some c => .error ⟨c⟩
    | none => .ok ()

/-- The configuration-load phase of app.js (lines 69 to 81):
try require.resolve; catch err: rethrow unless err.code is
MODULE_NOT_FOUND, otherwise copy config-example.js over to config.js;
finally: require config/config into global.Config.  Per JavaScript
semantics the finally block always runs; an error thrown in it replaces
a pending error, and a pending error propagates after a finally block
that completes normally.  Returns the filesystem afterwards and either
the loaded Config or the propagated error. -/
def configLoadPhase (fs : FS) (ioFault : Option String) :
    FS × Except NodeErr Config :=
  let step :=
    match resolveConfig fs ioFault with
    | .ok _ => (fs, none)
    | .error e =>
      if e.code = "MODULE_NOT_FOUND" then
        ({ fs with configFile := some fs.exampleFile }, none)
      else (fs, some e)
  match requireConfigModule step.1, step.2 with
  | .error e, _ => (step.1, .error e)
  | .ok _, some e => (step.1, .error e)
  | .ok c, none => (step.1, .ok c)

/-- The Ladders binding: app.js line 113 requires ladders-remote.js when
Config.remoteladder is set and ladders.js otherwise. -/
inductive LaddersImpl
  | remote
  | localLadder
deriving DecidableEq, Repr

/-- The selection made once, at startup, on line 113 of app.js. -/
def selectLadders (c : Config) : LaddersImpl :=
  if c.remoteladder then .remote else .localLadder

/-- The global bindings that app.js installs (lines 102 to 134 and 182),
plus the state of the Users permission-group cache.  usersCacheEpoch
counts calls to Users.cacheGroupData, so a bump records that the cache
was told to recompute. -/
structure GlobalState where
  config : Config
  sqlite3Loaded : Bool
  dbLoaded : Bool
  monitorLoaded : Bool
  toolsLoaded : Bool
  loginServerLoaded : Bool
  ladders : LaddersImpl
  usersPresent : Bool
  usersCacheEpoch : Nat
  punishmentsLoaded : Bool
  chatLoaded : Bool
  roomsLoaded : Bool
  tellsLoaded : Bool
  socketsLoaded : Bool
deriving DecidableEq, Repr

/-- The globals as the startup sequence leaves them when the loaded
configuration is c: every subsystem required, Ladders selected from
c.remoteladder. -/
def startupGlobals (c : Config) : GlobalState :=
  { config := c
    sqlite3Loaded := true
    dbLoaded := true
    monitorLoaded := true
    toolsLoaded := true
    loginServerLoaded := true
    ladders := selectLadders c
    usersPresent := true
    usersCacheEpoch := 0
    punishmentsLoaded := true
    chatLoaded := true
    roomsLoaded := true
    tellsLoaded := true
    socketsLoaded := true }

/-- Console output of the watchFile callback. -/
inductive LogEvent
  | reloadedConfig
  | reloadError (code : String)
deriving DecidableEq, Repr

/-- The fs.watchFile callback of app.js (lines 85 to 95): return early
unless curr.mtime strictly exceeds prev.mtime; otherwise delete the
require-cache entry and require config/config afresh.  On success assign
global.Config, call Users.cacheGroupData when global.Users exists, and
log the reload; if the require throws, log the error and leave every
global untouched. -/
def watchFileCallback (fs : FS) (currMtime prevMtime : Nat)
    (st : GlobalState) : GlobalState × List LogEvent :=
  if currMtime ≤ prevMtime then (st, [])
  else
    match requireConfigModule fs with
    | .ok newConfig =>
      ({ st with
          config := newConfig
          usersCacheEpoch :=
            if st.usersPresent then st.usersCacheEpoch + 1
            else st.usersCacheEpoch },
        [.reloadedConfig])
    | .error e => (st, [.reloadError e.code])

/-- The two branches of the uncaughtException handler (app.js lines 140
to 144). -/
inductive CrashAction
  | doStartLockdown
  | doReportCrash
deriving DecidableEq, Repr

/-- The state of Rooms.global that the crash supervisor touches:
whether the global lockdown (intake stop) has been started. -/
structure GlobalRoom where
  lockdown : Bool
deriving DecidableEq, Repr

/-- Modelled from the spec: Rooms.global.startLockdown lives in
rooms.js, which is not under src/.  Per the spec, a fault classified as
lockdown causes the intake-stop flag to become true and remain true
until an external restart. -/
def startLockdown (r : GlobalRoom) : GlobalRoom :=
  { r with lockdown := true }

/-- Modelled from the spec: Rooms.global.reportCrash lives in rooms.js,
which is not under src/.  Per the spec, a contained crash is logged and
reported and never sets the intake-stop flag. -/
def reportCrash (r : GlobalRoom) : GlobalRoom :=
  r

/-- The dispatch of the uncaughtException handler (app.js lines 138 to
145): classify the fault through crashlogger (an external module, passed
here as a function) and pick exactly one branch: startLockdown when the
classification is the string lockdown, reportCrash otherwise. -/
def uncaughtExceptionHandler (crashlogger : String → String → String)
    (err : String) : CrashAction :=
  if crashlogger err "The main process" = "lockdown" then .doStartLockdown
  else .doReportCrash

/-- The uncaughtException handler together with the effect of the chosen
branch on Rooms.global. -/
def handleUncaughtException (crashlogger : String → String → String)
    (err : String) (r : GlobalRoom) : GlobalRoom × CrashAction :=
  match uncaughtExceptionHandler crashlogger err with
  | .doStartLockdown => (startLockdown r, .doStartLockdown)
  | .doReportCrash => (reportCrash r, .doReportCrash)

/-- The unhandledRejection handler (app.js lines 146 to 148): the body
is a bare rethrow of the rejected value, so the handler never completes
normally; in Node a throw from this handler raises an uncaughtException
carrying the same value. -/
def unhandledRejectionHandler (err : String) : Except String Unit :=
  .error err

/-- The static exit-code table of the exit handler (app.js lines 150 to
164). -/
def exitCodesTable : Nat → Option String
  | 1 => some "Uncaught Fatal Exception"
  | 2 => some "Misuse of shell builtins"
  | 3 => some "Internal JavaScript Parse Error"
  | 4 => some "Internal JavaScript Evaluation Failure"
  | 5 => some "Fatal Error"
  | 6 => some "Non-function Internal Exception Handler"
  | 7 => some "Internal Exception Handler Run-Time Failure"
  | 8 => some "Unused Error Code. Formerly used by nodejs. Sometimes indicate a uncaught exception"
  | 9 => some "Invalid Argument"
  | 10 => some "Internal JavaScript Run-Time Failure"
  | 11 => some "A sysadmin forced an emergency exit"
  | 12 => some "Invalid Debug Argument"
  | 130 => some "Control-C via Terminal or Command Prompt"
  | _ => none

/-- The exit handler (app.js lines 149 to 175): with code 0 nothing is
printed; otherwise exitInfo defaults to Unused Error Code, a table hit
overrides it, and failing that a code above 128 is reported as Signal
Exit.  Returns the emitted exit-code diagnostic, none when silent. -/
def exitHandler (code : Nat) : Option String :=
  if code ≠ 0 then
    some
      (match exitCodesTable code with
        | some s => s
        | none => if code > 128 then "Signal Exit" else "Unused Error Code")
  else none

/-- The observable action of the dependency preflight block. -/
inductive DepAction
  | npmInstall
deriving DecidableEq, Repr

set_option linter.unusedVariables false in
/-- The dependency preflight of app.js (lines 55 to 63): try
require.resolve of sockjs; on failure throw Dependencies unmet unless
the process is the top-level entry point, in which case run npm install
synchronously via spawnSync and fall through.  The source performs no
re-check after the install: resolvableAfterInstall records whether the
install made the capability resolvable, and the control flow never
consults it. -/
def dependencyCheck (sockjsResolvable : Bool) (isMain : Bool)
    (resolvableAfterInstall : Bool) : Except String (List DepAction) :=
  if sockjsResolvable then .ok []
  else if !isMain then .error "Dependencies unmet"
  else .ok [.npmInstall]

/-- The top-level statements of app.js that the ordering claims talk
about, one constructor per statement (each initX is the corresponding
global.X = require line). -/
inductive StartupEvent
  | evDependencyCheck
  | evConfigLoad
  | evWatchConfigSetup
  | initSqlite3
  | initDb
  | initMonitor
  | initTools
  | initLoginServer
  | initLadders
  | initUsers
  | initPunishments
  | initChat
  | initRooms
  | initTells
  | initVerifier
  | spawnVerifierPM
  | initSG
  | initTournaments
  | initDnsbl
  | installCrashSupervisor
  | initSockets
  | socketsListen
  | includeFormats
  | initTeamValidator
  | spawnTeamValidatorPM
  | startRepl
deriving DecidableEq, Repr

/-- The order in which the top level of app.js executes, read off the
source line by line: the watchFile setup only runs when
Config.watchconfig is set (line 83), the crash supervisor is only
installed when Config.crashguard is set (line 136), and Sockets.listen
only runs when the module is the top-level entry point (line 188). -/
def startupSequence (watchconfig crashguard isMain : Bool) :
    List StartupEvent :=
  [.evDependencyCheck, .evConfigLoad]
    ++ (if watchconfig then [.evWatchConfigSetup] else [])
    ++ [.initSqlite3, .initDb, .initMonitor, .initTools, .initLoginServer,
        .initLadders, .initUsers, .initPunishments, .initChat, .initRooms,
        .initTells, .initVerifier, .spawnVerifierPM, .initSG,
        .initTournaments, .initDnsbl]
    ++ (if crashguard then [.installCrashSupervisor] else [])
    ++ [.initSockets]
    ++ (if isMain then [.socketsListen] else [])
    ++ [.includeFormats, .initTeamValidator, .spawnTeamValidatorPM,
        .startRepl]

/-- Whether the CommonJS module cache already holds app.js. -/
structure ModuleState where
  appLoaded : Bool
deriving DecidableEq, Repr

/-- Requiring app.js under the CommonJS module cache: the first require
executes the module top level (the startup sequence); any later require
returns the cached exports without re-executing the body and without
raising an error.  The module body itself has no re-entry guard. -/
def requireApp (watchconfig crashguard isMain : Bool) (st : ModuleState) :
    ModuleState × Except String (List StartupEvent) :=
  if st.appLoaded then (st, .ok [])
  else (⟨true⟩, .ok (startupSequence watchconfig crashguard isMain))

/-- Helper: whether an Except value is a success. -/
def exceptOk {ε α : Type} : Except ε α → Bool
  | .ok _ => true
  | .error _ => false

/-- C1: when re-parsing the configuration file throws during a hot-reload
attempt, the callback leaves every global binding exactly as it was (in
particular global.Config still holds the pre-reload snapshot) and, when
the reload was actually attempted (strictly newer mtime), the only
output is the logged reload error. -/
theorem c1_reload_failure_keeps_snapshot (fs : FS) (curr prev : Nat)
    (st : GlobalState) (e : NodeErr)
    (h : requireConfigModule fs = .error e) :
    (watchFileCallback fs curr prev st).1 = st ∧
    (prev < curr →
      (watchFileCallback fs curr prev st).2 = [.reloadError e.code]) := by
  by_cases hle : curr ≤ prev
  · exact ⟨by simp [watchFileCallback, hle], fun hlt => absurd hlt (by omega)⟩
  · exact ⟨by simp [watchFileCallback, hle, h], fun _ => by
      simp [watchFileCallback, hle, h]⟩

/-- Witness for C1: a configuration file whose evaluation throws, written
at mtime 2 after mtime 1, leaves the startup globals untouched and logs
the error. -/
theorem c1_reload_failure_keeps_snapshot_witness :
    (watchFileCallback ⟨some (.invalid "bad"), .valid ⟨true, true, false⟩⟩
        2 1 (startupGlobals ⟨true, true, false⟩)).1 =
      startupGlobals ⟨true, true, false⟩ ∧
    (watchFileCallback ⟨some (.invalid "bad"), .valid ⟨true, true, false⟩⟩
        2 1 (startupGlobals ⟨true, true, false⟩)).2 =
      [.reloadError "ERR_CONFIG_EVAL"] :=
  ⟨(c1_reload_failure_keeps_snapshot
      ⟨some (.invalid "bad"), .valid ⟨true, true, false⟩⟩ 2 1
      (startupGlobals ⟨true, true, false⟩) ⟨"ERR_CONFIG_EVAL"⟩ rfl).1,
    (c1_reload_failure_keeps_snapshot
      ⟨some (.invalid "bad"), .valid ⟨true, true, false⟩⟩ 2 1
      (startupGlobals ⟨true, true, false⟩) ⟨"ERR_CONFIG_EVAL"⟩ rfl).2
      (by decide)⟩

/-- C4: with a parseable configuration file on disk, the watchFile
callback replaces the snapshot exactly when the new mtime strictly
exceeds the previously observed one, and on that replacement the Users
permission-group cache is told to recompute. -/
theorem c4_reload_iff_newer_mtime (fs : FS) (curr prev : Nat)
    (st : GlobalState) (c : Config)
    (hp : requireConfigModule fs = .ok c)
    (hu : st.usersPresent = true) :
    (LogEvent.reloadedConfig ∈ (watchFileCallback fs curr prev st).2 ↔
      prev < curr) ∧
    (prev < curr →
      (watchFileCallback fs curr prev st).1.config = c ∧
      (watchFileCallback fs curr prev st).1.usersCacheEpoch =
        st.usersCacheEpoch + 1) := by
  by_cases hle : curr ≤ prev
  · have hnlt : ¬ prev < curr := by omega
    constructor
    · simp [watchFileCallback, hle, hnlt]
    · intro hlt
      exact absurd hlt hnlt
  · have hlt : prev < curr := by omega
    constructor
    · simp [watchFileCallback, hle, hp, hlt]
    · intro _
      constructor
      · simp [watchFileCallback, hle, hp]
      · simp [watchFileCallback, hle, hp, hu]

/-- Witness for C4: a valid configuration written at mtime 5 after
mtime 3 is reloaded and bumps the Users cache epoch, while an equal
mtime triggers nothing. -/
theorem c4_reload_iff_newer_mtime_witness :
    (LogEvent.reloadedConfig ∈
      (watchFileCallback ⟨some (.valid ⟨true, false, true⟩), .valid ⟨true, true, false⟩⟩
        5 3 (startupGlobals ⟨true, true, false⟩)).2) ∧
    (watchFileCallback ⟨some (.valid ⟨true, false, true⟩), .valid ⟨true, true, false⟩⟩
        5 3 (startupGlobals ⟨true, true, false⟩)).1.config = ⟨true, false, true⟩ ∧
    ¬ (LogEvent.reloadedConfig ∈
      (watchFileCallback ⟨some (.valid ⟨true, false, true⟩), .valid ⟨true, true, false⟩⟩
        5 5 (startupGlobals ⟨true, true, false⟩)).2) :=
  ⟨(c4_reload_iff_newer_mtime
      ⟨some (.valid ⟨true, false, true⟩), .valid ⟨true, true, false⟩⟩ 5 3
      (startupGlobals ⟨true, true, false⟩) ⟨true, false, true⟩ rfl rfl).1.mpr
      (by decide),
    ((c4_reload_iff_newer_mtime
      ⟨some (.valid ⟨true, false, true⟩), .valid ⟨true, true, false⟩⟩ 5 3
      (startupGlobals ⟨true, true, false⟩) ⟨true, false, true⟩ rfl rfl).2
      (by decide)).1,
    fun hmem =>
      absurd ((c4_reload_iff_newer_mtime
        ⟨some (.valid ⟨true, false, true⟩), .valid ⟨true, true, false⟩⟩ 5 5
        (startupGlobals ⟨true, true, false⟩) ⟨true, false, true⟩ rfl rfl).1.mp
        hmem) (by decide)⟩

/-- C10: the hot-reload callback mutates only the configuration binding
and the Users permission-group cache; every other global keeps its value,
and in particular the Ladders implementation chosen at startup from the
remoteladder option of the startup configuration stays selected no matter
what configuration the reload produces. -/
theorem c10_reload_frame (fs : FS) (curr prev : Nat) (st : GlobalState)
    (c : Config) :
    ((watchFileCallback fs curr prev st).1.ladders = st.ladders ∧
      (watchFileCallback fs curr prev st).1.sqlite3Loaded = st.sqlite3Loaded ∧
      (watchFileCallback fs curr prev st).1.dbLoaded = st.dbLoaded ∧
      (watchFileCallback fs curr prev st).1.monitorLoaded = st.monitorLoaded ∧
      (watchFileCallback fs curr prev st).1.toolsLoaded = st.toolsLoaded ∧
      (watchFileCallback fs curr prev st).1.loginServerLoaded =
        st.loginServerLoaded ∧
      (watchFileCallback fs curr prev st).1.usersPresent = st.usersPresent ∧
      (watchFileCallback fs curr prev st).1.punishmentsLoaded =
        st.punishmentsLoaded ∧
      (watchFileCallback fs curr prev st).1.chatLoaded = st.chatLoaded ∧
      (watchFileCallback fs curr prev st).1.roomsLoaded = st.roomsLoaded ∧
      (watchFileCallback fs curr prev st).1.tellsLoaded = st.tellsLoaded ∧
      (watchFileCallback fs curr prev st).1.socketsLoaded =
        st.socketsLoaded) ∧
    (watchFileCallback fs curr prev (startupGlobals c)).1.ladders =
      selectLadders c := by
  constructor
  · unfold watchFileCallback
    split
    · simp
    · split <;> simp
  · unfold watchFileCallback
    split
    · simp [startupGlobals]
    · split <;> simp [startupGlobals]

/-- C2: every uncaught fault reaching the crashguard handler is run
through the crash logger, and exactly one of the two branches follows:
a lockdown classification starts the global lockdown (the intake-stop
flag becomes true), and any other classification reports a contained
crash and leaves the lockdown flag exactly as it was. -/
theorem c2_crash_classification (crashlogger : String → String → String)
    (err : String) (r : GlobalRoom) :
    (crashlogger err "The main process" = "lockdown" →
      handleUncaughtException crashlogger err r =
        ({ r with lockdown := true }, .doStartLockdown)) ∧
    (crashlogger err "The main process" ≠ "lockdown" →
      handleUncaughtException crashlogger err r = (r, .doReportCrash) ∧
      (handleUncaughtException crashlogger err r).1.lockdown =
        r.lockdown) := by
  constructor
  · intro hcl
    simp [handleUncaughtException, uncaughtExceptionHandler, hcl,
      startLockdown]
  · intro hcl
    simp [handleUncaughtException, uncaughtExceptionHandler, hcl,
      reportCrash]

/-- Witness for C2: a fault classified lockdown sets the flag, a fault
classified otherwise leaves it clear. -/
theorem c2_crash_classification_witness :
    handleUncaughtException (fun _ _ => "lockdown") "boom" ⟨false⟩ =
      (⟨true⟩, .doStartLockdown) ∧
    handleUncaughtException (fun _ _ => "crash") "boom" ⟨false⟩ =
      (⟨false⟩, .doReportCrash) :=
  ⟨(c2_crash_classification (fun _ _ => "lockdown") "boom" ⟨false⟩).1 rfl,
    ((c2_crash_classification (fun _ _ => "crash") "boom" ⟨false⟩).2
      (by decide)).1⟩

/-- C6: the unhandledRejection handler rethrows every rejected value, so
no rejection is ever swallowed, and the rethrown value lands in the
uncaughtException path where one of the two crash actions is always
taken. -/
theorem c6_rejection_promoted (err : String)
    (crashlogger : String → String → String) (r : GlobalRoom) :
    unhandledRejectionHandler err = .error err ∧
    exceptOk (unhandledRejectionHandler err) = false ∧
    ((handleUncaughtException crashlogger err r).2 = .doStartLockdown ∨
      (handleUncaughtException crashlogger err r).2 = .doReportCrash) := by
  refine ⟨rfl, rfl, ?_⟩
  unfold handleUncaughtException uncaughtExceptionHandler
  split
  · exact Or.inl rfl
  · exact Or.inr rfl

/-- C5: the exit handler is silent on code 0, prints Uncaught Fatal
Exception on code 1, classifies an absent code above 128 as Signal Exit,
marks any other absent nonzero code Unused Error Code, and a table hit
always takes precedence over the above-128 signal check. -/
theorem c5_exit_diagnostics :
    exitHandler 0 = none ∧
    exitHandler 1 = some "Uncaught Fatal Exception" ∧
    exitHandler 135 = some "Signal Exit" ∧
    (∀ code : Nat, code ≠ 0 → exitCodesTable code = none → code ≤ 128 →
      exitHandler code = some "Unused Error Code") ∧
    (∀ (code : Nat) (s : String), exitCodesTable code = some s →
      code ≠ 0 → exitHandler code = some s) := by
  refine ⟨rfl, rfl, rfl, ?_, ?_⟩
  · intro code h0 htab h128
    have hn : ¬ code > 128 := by omega
    simp [exitHandler, h0, htab, hn]
  · intro code s htab h0
    simp [exitHandler, h0, htab]

/-- Witness for C5: code 42 is absent from the table and at most 128, so
it is reported Unused Error Code; code 130 is in the table and above
128, and the table entry wins over the Signal Exit classification. -/
theorem c5_exit_diagnostics_witness :
    exitHandler 42 = some "Unused Error Code" ∧
    exitHandler 130 = some "Control-C via Terminal or Command Prompt" :=
  ⟨c5_exit_diagnostics.2.2.2.1 42 (by decide) rfl (by decide),
    c5_exit_diagnostics.2.2.2.2 130
      "Control-C via Terminal or Command Prompt" rfl (by decide)⟩

/-- C3: on first load, an absent configuration file is materialized from
the bundled template and the loaded snapshot is exactly the template
contents with no error; an existing file is never overwritten; and a
resolve failure whose code is not MODULE_NOT_FOUND is re-raised, so the
load phase ends in an error. -/
theorem c3_first_load_materializes_template (fs : FS) (c : Config)
    (io : Option String) (x : ConfigFileContent) (e : String) :
    (fs.configFile = none → fs.exampleFile = .valid c →
      configLoadPhase fs none =
        ({ fs with configFile := some fs.exampleFile }, .ok c)) ∧
    (fs.configFile = some x → io ≠ some "MODULE_NOT_FOUND" →
      (configLoadPhase fs io).1 = fs) ∧
    (io = some e → e ≠ "MODULE_NOT_FOUND" → fs.configFile = some x →
      exceptOk (configLoadPhase fs io).2 = false) := by
  refine ⟨?_, ?_, ?_⟩
  · intro h1 h2
    simp [configLoadPhase, resolveConfig, requireConfigModule, h1, h2]
  · intro h1 h2
    match io with
    | none =>
      simp [configLoadPhase, resolveConfig, requireConfigModule, h1]
      cases x <;> simp
    | some ec =>
      have hne : ec ≠ "MODULE_NOT_FOUND" := fun hc => h2 (by rw [hc])
      simp [configLoadPhase, resolveConfig, requireConfigModule, h1, hne]
      cases x <;> simp
  · intro h1 h2 h3
    subst h1
    simp [configLoadPhase, resolveConfig, requireConfigModule, h3, h2]
    cases x <;> simp [exceptOk]

/-- Witness for C3: with no config.js and a valid template, the load
phase copies the template and returns its contents; with config.js
present, an injected EACCES resolve fault leaves the file alone and the
load phase ends in an error. -/
theorem c3_first_load_materializes_template_witness :
    configLoadPhase ⟨none, .valid ⟨false, true, false⟩⟩ none =
      (⟨some (.valid ⟨false, true, false⟩), .valid ⟨false, true, false⟩⟩,
        .ok ⟨false, true, false⟩) ∧
    (configLoadPhase ⟨some (.valid ⟨false, true, false⟩),
        .valid ⟨false, true, false⟩⟩ (some "EACCES")).1 =
      ⟨some (.valid ⟨false, true, false⟩), .valid ⟨false, true, false⟩⟩ ∧
    exceptOk (configLoadPhase ⟨some (.valid ⟨false, true, false⟩),
        .valid ⟨false, true, false⟩⟩ (some "EACCES")).2 = false :=
  ⟨(c3_first_load_materializes_template
      ⟨none, .valid ⟨false, true, false⟩⟩ ⟨false, true, false⟩ none
      (.valid ⟨false, true, false⟩) "EACCES").1 rfl rfl,
    (c3_first_load_materializes_template
      ⟨some (.valid ⟨false, true, false⟩), .valid ⟨false, true, false⟩⟩
      ⟨false, true, false⟩ (some "EACCES")
      (.valid ⟨false, true, false⟩) "EACCES").2.1 rfl (by decide),
    (c3_first_load_materializes_template
      ⟨some (.valid ⟨false, true, false⟩), .valid ⟨false, true, false⟩⟩
      ⟨false, true, false⟩ (some "EACCES")
      (.valid ⟨false, true, false⟩) "EACCES").2.2 rfl (by decide) rfl⟩

/-- Counterexample to C7: with sockjs unresolvable, the process running
as the top-level entry point, and the install failing to make it
resolvable, the preflight still completes successfully (npm install ran,
nothing was re-checked), so startup does not fail fast as the claim
requires. -/
theorem c7_no_recheck_counterexample :
    dependencyCheck false true false = .ok [.npmInstall] ∧
    exceptOk (dependencyCheck false true false) ≠ false := by
  refine ⟨rfl, ?_⟩
  intro h
  simp [dependencyCheck, exceptOk] at h

/-- C7 amended: with the capability resolvable the preflight does
nothing; with it missing in a non-top-level process the preflight throws
Dependencies unmet; with it missing in the top-level process a
synchronous npm install is invoked and startup continues with no
re-check of the capability, whatever the install achieved. -/
theorem c7_dependency_preflight_amended (m a after : Bool) :
    dependencyCheck true m a = .ok [] ∧
    dependencyCheck false false after = .error "Dependencies unmet" ∧
    dependencyCheck false true after = .ok [.npmInstall] :=
  ⟨rfl, rfl, rfl⟩

/-- Counterexample to C8: in the top-level startup order (watchconfig,
crashguard and main-module all set), the Verifier worker manager spawns
its child process strictly before the crash supervisor is installed. -/
theorem c8_spawn_before_crashguard_counterexample :
    (startupSequence true true true).indexOf .spawnVerifierPM <
      (startupSequence true true true).indexOf .installCrashSupervisor := by
  decide

/-- C8 amended: the top level runs dependency check, then configuration
load, then the subsystem requires, during which the Verifier worker
manager already spawns its child; only after that is the crash
supervisor installed, then the network listener activated, and then the
TeamValidator worker manager spawns its child. -/
theorem c8_startup_order_amended (w : Bool) :
    (startupSequence w true true).indexOf .evDependencyCheck <
      (startupSequence w true true).indexOf .evConfigLoad ∧
    (startupSequence w true true).indexOf .evConfigLoad <
      (startupSequence w true true).indexOf .initSqlite3 ∧
    (startupSequence w true true).indexOf .initSqlite3 <
      (startupSequence w true true).indexOf .spawnVerifierPM ∧
    (startupSequence w true true).indexOf .spawnVerifierPM <
      (startupSequence w true true).indexOf .installCrashSupervisor ∧
    (startupSequence w true true).indexOf .installCrashSupervisor <
      (startupSequence w true true).indexOf .socketsListen ∧
    (startupSequence w true true).indexOf .socketsListen <
      (startupSequence w true true).indexOf .spawnTeamValidatorPM := by
  cases w <;> decide

/-- Counterexample to C9: requiring app.js a second time in a process
that already loaded it is a silent success returning the cached exports
and executing no initializer, not a rejection with an error. -/
theorem c9_second_init_counterexample :
    (requireApp true true true
        ((requireApp true true true ⟨false⟩).1)).2 =
      .ok ([] : List StartupEvent) ∧
    exceptOk ((requireApp true true true
        ((requireApp true true true ⟨false⟩).1)).2) = true := by
  exact ⟨rfl, rfl⟩

/-- C9 amended: a first require of app.js runs every top-level
initializer exactly once, in source order (the returned event list is
the startup sequence itself and has no duplicates); a second require in
the same process is a silent no-op via the module cache, executing no
initializer and raising no error. -/
theorem c9_init_exactly_once_amended (w c m : Bool) (st : ModuleState)
    (h : st.appLoaded = false) :
    requireApp w c m st = (⟨true⟩, .ok (startupSequence w c m)) ∧
    (startupSequence w c m).Nodup ∧
    requireApp w c m ⟨true⟩ = (⟨true⟩, .ok []) := by
  obtain ⟨b⟩ := st
  have hb : b = false := h
  subst hb
  refine ⟨rfl, ?_, rfl⟩
  cases w <;> cases c <;> cases m <;> decide

/-- Witness for C9: the concrete first require with every flag set runs
the full duplicate-free startup sequence, and the second require is a
cached no-op. -/
theorem c9_init_exactly_once_amended_witness :
    requireApp true true true ⟨false⟩ =
      (⟨true⟩, .ok (startupSequence true true true)) ∧
    (startupSequence true true true).Nodup ∧
    requireApp true true true ⟨true⟩ = (⟨true⟩, .ok []) :=
  ⟨(c9_init_exactly_once_amended true true true ⟨false⟩ rfl).1,
    (c9_init_exactly_once_amended true true true ⟨false⟩ rfl).2.1,
    (c9_init_exactly_once_amended true true true ⟨false⟩ rfl).2.2⟩

end AppJs
